import Mathlib

/-!
Shallow embedding of `src/torchio/queue.py` (class `Queue`).

Modelling conventions:
* A tensor is abstracted to its shape: the queue code only inspects `ndim`
  and indexes along the leading (batch) axis.
* A subject (one source item) is a Python dict of tensors, modelled as an
  association list.  The `DataLoader` with batch size 1 yields, per subject,
  a collated batch in which every tensor has gained a leading axis of size 1
  (`collate` below); `squeeze_batch` strips index 0 of every value.
* The dataset iterator (`iter(DataLoader(...))`) is a list of the subjects
  still to be yielded in the current pass, plus a pass counter.  When
  shuffling is on, the k-th freshly constructed loader yields the list
  `passes k` (an external collaborator: each pass is some permutation of the
  dataset); with shuffling off it yields the dataset in order.
* The extraction strategy `sampler_class(subject, patch_size)` yields a
  (lazy) sequence of patches; `islice(sampler, samples_per_volume)` is
  `List.take`.  The sequence is modelled by the list of values it would
  produce (for an unbounded generator, any list of length at least
  `samples_per_volume` is observationally equivalent after the `islice`).
* Python exceptions become the `PyResult.err` constructor; because the
  Python object is mutated in place, the state at the moment the exception
  escapes is part of the result (`PyResult` carries the final state in both
  the ok and the err case).
* `warnings.warn` appends to the explicit event log `warningsEmitted`
  (empty at construction; the constructor contains no `warnings.warn` call).
* A patch is a dict; the only field the queue itself reads is `'path'`
  (in the trace-message arguments of `__getitem__`, which Python evaluates
  before calling `self.print`, whether or not `verbose` is set).
-/

/-- A tensor, abstracted to its shape. -/
structure Tensor where
  shape : List Nat
deriving DecidableEq, Repr

/-- `ndim` of a tensor. -/
def Tensor.ndim (t : Tensor) : Nat := t.shape.length

/-- Python indexing `t[i]` along the leading axis: drops the leading
dimension when `i` is in range, otherwise raises (returns `none`). -/
def Tensor.index (t : Tensor) (i : Nat) : Option Tensor :=
  match t.shape with
  | [] => none
  | d :: rest => if i < d then some ⟨rest⟩ else none

/-- A subject: a dict mapping field names to tensors. -/
abbrev Subject := List (String × Tensor)

/-- A value stored in a patch dict: a string (e.g. a path) or a tensor. -/
inductive PatchVal where
  | str (s : String)
  | tensor (t : Tensor)
deriving DecidableEq, Repr

/-- A patch (sub-item): a dict of values. -/
abbrev Patch := List (String × PatchVal)

/-- The Python exceptions the queue code can raise. -/
inductive PyErr where
  | assertionError (which : String)
  | stopIteration
  | typeError
  | zeroDivisionError
  | indexError
  | keyError (k : String)
  | attributeError
deriving DecidableEq, Repr

/-- Outcome of running a method on the (mutable, in-place updated) queue
object: the final state is observable in the error case too, because the
Python exception escapes from a partially mutated `self`. -/
inductive PyResult (σ : Type) (α : Type) where
  | ok (a : α) (s : σ)
  | err (e : PyErr) (s : σ)

/-- Which exception, if any, a result carries. -/
def PyResult.errKind {σ α : Type} : PyResult σ α → Option PyErr
  | .ok _ _ => none
  | .err e _ => some e

/-- The state after the call, whether it returned or raised. -/
def PyResult.finalState {σ α : Type} : PyResult σ α → σ
  | .ok _ s => s
  | .err _ s => s

/-- `DataLoader` collation at batch size 1: every tensor gains a leading
batch axis of size 1. -/
def collate (s : Subject) : Subject :=
  s.map (fun kv => (kv.1, ⟨1 :: kv.2.shape⟩))

/-- `Queue.squeeze_batch`: replaces every value of the batch dict by
`value[idx]`; an out-of-range index raises `IndexError`. -/
def squeeze_batch (batch : Subject) (idx : Nat) : Except PyErr Subject :=
  match batch with
  | [] => .ok []
  | (k, v) :: rest =>
    match v.index idx with
    | none => .error .indexError
    | some v' =>
      match squeeze_batch rest idx with
      | .error e => .error e
      | .ok rest' => .ok ((k, v') :: rest')

/-- The message of the `assert self.sampler_class is not None` statement. -/
def samplerAssertMsg : String := "sampler_class is not None"

/-- The message of the `assert self.patch_size is not None` statement. -/
def patchSizeAssertMsg : String := "patch_size is not None"

/-- The message of the 4-dimension shape assertion in
`get_next_subject_sample`. -/
def shapeAssertMsg : String := "image should have 4 dimensions"

/-- The warning text emitted by `fill` when `max_length` is not divisible
by `samples_per_volume`. -/
def divisibilityMessage (spv maxLen : Nat) : String :=
  "Samples per volume (" ++ toString spv ++
    ") not divisible by max length (" ++ toString maxLen ++ ")"

/-- The state of a `torchio.Queue` object.  Field names follow the Python
attributes; `passes`/`passCount` model the behaviour of successively
constructed shuffled loaders, and `warningsEmitted` is the explicit log of
the `warnings.warn` side effects. -/
structure Queue where
  subjects_dataset : List Subject
  max_length : Option Nat
  shuffle_dataset : Bool
  samples_per_volume : Option Nat
  sampler_class : Option (Subject → Nat → List Patch)
  patch_size : Option Nat
  num_workers : Nat
  verbose : Bool
  passes : Nat → List Subject
  passCount : Nat
  subjects_iterable : List Subject
  patches_list : List Patch
  num_sampled_patches : Nat
  warningsEmitted : List String

/-- `Queue.get_subjects_iterable`: builds `iter(DataLoader(dataset,
shuffle=self.shuffle_dataset, num_workers=self.num_workers))`.  Returns the
sequence the fresh loader will yield and bumps the pass counter. -/
def Queue.get_subjects_iterable (q : Queue) : List Subject × Queue :=
  let pass := if q.shuffle_dataset then q.passes q.passCount else q.subjects_dataset
  (pass, { q with passCount := q.passCount + 1 })

/-- `Queue.__init__`: stores every argument unchecked, starts with an empty
patches list and a zero sample counter, and creates the first subjects
iterable. -/
def Queue.init (subjects_dataset : List Subject) (passes : Nat → List Subject)
    (max_length samples_per_volume : Option Nat) (patch_size : Option Nat)
    (sampler_class : Option (Subject → Nat → List Patch))
    (num_workers : Nat) (shuffle_dataset verbose : Bool) : Queue :=
  let q0 : Queue :=
    { subjects_dataset := subjects_dataset
      max_length := max_length
      shuffle_dataset := shuffle_dataset
      samples_per_volume := samples_per_volume
      sampler_class := sampler_class
      patch_size := patch_size
      num_workers := num_workers
      verbose := verbose
      passes := passes
      passCount := 0
      subjects_iterable := []
      patches_list := []
      num_sampled_patches := 0
      warningsEmitted := [] }
  let (it, q1) := q0.get_subjects_iterable
  { q1 with subjects_iterable := it }

/-- `Queue.num_subjects` property: `len(self.subjects_dataset)`. -/
def Queue.num_subjects (q : Queue) : Nat := q.subjects_dataset.length

/-- `Queue.num_patches` property: `len(self.patches_list)`. -/
def Queue.num_patches (q : Queue) : Nat := q.patches_list.length

/-- `Queue.iterations_per_epoch` property:
`self.num_subjects * self.samples_per_volume` (a `TypeError` when
`samples_per_volume` is `None`). -/
def Queue.iterations_per_epoch (q : Queue) : Except PyErr Nat :=
  match q.samples_per_volume with
  | none => .error .typeError
  | some spv => .ok (q.num_subjects * spv)

/-- `Queue.__len__`: returns `self.iterations_per_epoch`. -/
def Queue.len (q : Queue) : Except PyErr Nat := q.iterations_per_epoch

/-- `Queue.get_next_subject_sample`: takes the next batch from the current
iterable; on `StopIteration` replaces the iterable by a fresh one and takes
its first batch (a second `StopIteration` escapes).  Then squeezes the
batch and asserts the squeezed `'image'` tensor has 4 dimensions. -/
def Queue.get_next_subject_sample (q : Queue) : PyResult Queue Subject :=
  let step : PyResult Queue Subject :=
    match q.subjects_iterable with
    | b :: rest => .ok (collate b) { q with subjects_iterable := rest }
    | [] =>
      let (it, q1) := q.get_subjects_iterable
      match it with
      | b :: rest => .ok (collate b) { q1 with subjects_iterable := rest }
      | [] => .err .stopIteration { q1 with subjects_iterable := [] }
  match step with
  | .err e s => .err e s
  | .ok subject_batch q2 =>
    match squeeze_batch subject_batch 0 with
    | .error e => .err e q2
    | .ok subject_sample =>
      match List.lookup "image" subject_sample with
      | none => .err (.keyError "image") q2
      | some t =>
        if t.ndim = 4 then .ok subject_sample q2
        else .err (.assertionError shapeAssertMsg) q2

/-- The `for _ in progress:` loop body of `Queue.fill`, run `n` times:
draw a subject sample, instantiate the sampler on it, take the first
`samples_per_volume` patches it yields, and extend `patches_list`. -/
def Queue.fillLoop (sampler : Subject → Nat → List Patch) (ps spv : Nat) :
    Nat → Queue → PyResult Queue Unit
  | 0, q => .ok () q
  | n + 1, q =>
    match q.get_next_subject_sample with
    | .err e s => .err e s
    | .ok subject_sample q1 =>
      let samples := (sampler subject_sample ps).take spv
      Queue.fillLoop sampler ps spv n
        { q1 with patches_list := q1.patches_list ++ samples }

/-- `Queue.fill`: asserts the sampler class and patch size are provided,
warns when `max_length % samples_per_volume != 0`, computes
`num_subjects_for_queue = min(num_subjects, max_length // samples_per_volume)`
and runs the fill loop that many times.  Arithmetic on a `None` operand is
a `TypeError`; `% 0` is a `ZeroDivisionError`. -/
def Queue.fill (q : Queue) : PyResult Queue Unit :=
  match q.sampler_class with
  | none => .err (.assertionError samplerAssertMsg) q
  | some sampler =>
    match q.patch_size with
    | none => .err (.assertionError patchSizeAssertMsg) q
    | some ps =>
      match q.max_length, q.samples_per_volume with
      | none, _ => .err .typeError q
      | some _, none => .err .typeError q
      | some maxLen, some spv =>
        if spv = 0 then .err .zeroDivisionError q
        else
          let q1 :=
            if maxLen % spv ≠ 0 then
              { q with warningsEmitted :=
                  q.warningsEmitted ++ [divisibilityMessage spv maxLen] }
            else q
          let max_num_subjects_for_queue := maxLen / spv
          let num_subjects_for_queue :=
            min q.num_subjects max_num_subjects_for_queue
          Queue.fillLoop sampler ps spv num_subjects_for_queue q1

/-- One element of the traced list comprehension in `Queue.__getitem__`:
evaluates the expression for one patch (a missing key raises `KeyError`, a
non-string value has no string split method). -/
def tracePatch (p : Patch) : Except PyErr String :=
  match List.lookup "path" p with
  | none => .error (.keyError "path")
  | some (.tensor _) => .error .attributeError
  | some (.str s) => .ok ((s.splitOn "_").getLastD "")

/-- The whole list comprehension over `patches_list`, evaluated left to
right; Python evaluates it eagerly as an argument of `self.print`, whether
or not `verbose` is on. -/
def tracePatches : List Patch → Except PyErr (List String)
  | [] => .ok []
  | p :: rest =>
    match tracePatch p with
    | .error e => .error e
    | .ok s =>
      match tracePatches rest with
      | .error e => .error e
      | .ok ss => .ok (s :: ss)

/-- The tail of `Queue.__getitem__`, after the possible `fill`: evaluate
the trace-message arguments for every buffered patch (Python computes them
before calling `self.print`, whether or not `verbose` is set);
`patches_list.pop()` removes and returns the last element (an `IndexError`
on an empty list); increment `num_sampled_patches`. -/
def Queue.popStage (q1 : Queue) : PyResult Queue Patch :=
  match tracePatches q1.patches_list with
  | .error e => .err e q1
  | .ok _ =>
    match q1.patches_list.getLast? with
    | none => .err .indexError q1
    | some p =>
      .ok p { q1 with patches_list := q1.patches_list.dropLast,
                      num_sampled_patches := q1.num_sampled_patches + 1 }

/-- `Queue.__getitem__` (the index argument is ignored): if `patches_list`
is empty, run `fill` first; then trace, pop and count. -/
def Queue.getItem (q : Queue) (_idx : Nat) : PyResult Queue Patch :=
  match (if q.patches_list.isEmpty then q.fill else .ok () q) with
  | .err e s => .err e s
  | .ok _ q1 => q1.popStage

/-- `n` successive `__getitem__` calls, stopping at the first exception. -/
def Queue.popN (q : Queue) : Nat → PyResult Queue Unit
  | 0 => .ok () q
  | n + 1 =>
    match q.getItem 0 with
    | .ok _ q' => q'.popN n
    | .err e s => .err e s

/-- A subject passes the shape assertion after the collate/squeeze round
trip exactly when its raw `'image'` tensor has 4 dimensions. -/
def subjectOk (s : Subject) : Bool :=
  match List.lookup "image" s with
  | some t => t.ndim == 4
  | none => false

/-- Contract of the external collaborators (dataset and loader): every
subject still to be yielded, every dataset subject and every subject of any
shuffled pass passes the shape check, and every fresh pass yields exactly
the dataset's subjects (in some order), hence has its length. -/
def Queue.sourceWf (q : Queue) : Prop :=
  (∀ s ∈ q.subjects_iterable, subjectOk s = true) ∧
  (∀ s ∈ q.subjects_dataset, subjectOk s = true) ∧
  (∀ k, ∀ s ∈ q.passes k, subjectOk s = true) ∧
  (∀ k, (q.passes k).length = q.subjects_dataset.length)

/-- The configuration fields (immutable for the queue's lifetime). -/
def Queue.sameConfig (q q' : Queue) : Prop :=
  q'.subjects_dataset = q.subjects_dataset ∧
  q'.max_length = q.max_length ∧
  q'.shuffle_dataset = q.shuffle_dataset ∧
  q'.samples_per_volume = q.samples_per_volume ∧
  q'.sampler_class = q.sampler_class ∧
  q'.patch_size = q.patch_size ∧
  q'.verbose = q.verbose ∧
  q'.passes = q.passes

theorem sameConfig_refl (q : Queue) : q.sameConfig q :=
  ⟨rfl, rfl, rfl, rfl, rfl, rfl, rfl, rfl⟩

theorem sameConfig_trans {a b c : Queue} (h1 : a.sameConfig b)
    (h2 : b.sameConfig c) : a.sameConfig c := by
  obtain ⟨x1, x2, x3, x4, x5, x6, x7, x8⟩ := h1
  obtain ⟨y1, y2, y3, y4, y5, y6, y7, y8⟩ := h2
  exact ⟨y1.trans x1, y2.trans x2, y3.trans x3, y4.trans x4, y5.trans x5,
    y6.trans x6, y7.trans x7, y8.trans x8⟩

/-- Squeezing a collated batch-of-one recovers the original subject. -/
theorem squeeze_collate (s : Subject) : squeeze_batch (collate s) 0 = .ok s := by
  induction s with
  | nil => rfl
  | cons kv rest ih =>
    obtain ⟨k, v⟩ := kv
    obtain ⟨sh⟩ := v
    show squeeze_batch ((k, ⟨1 :: sh⟩) :: collate rest) 0 = .ok ((k, ⟨sh⟩) :: rest)
    simp [squeeze_batch, Tensor.index, ih]

/-- Unpacking `subjectOk`. -/
theorem subjectOk_spec (s : Subject) (h : subjectOk s = true) :
    ∃ t, List.lookup "image" s = some t ∧ t.ndim = 4 := by
  unfold subjectOk at h
  cases hl : List.lookup "image" s with
  | none => rw [hl] at h; simp at h
  | some t =>
    rw [hl] at h
    simp only [beq_iff_eq] at h
    exact ⟨t, rfl, h⟩

/-- On a well-formed source with at least one subject,
`get_next_subject_sample` succeeds, returns a shape-valid subject, keeps
the source well-formed, and touches neither the configuration, the patches
list, the sample counter nor the warning log. -/
theorem get_next_subject_sample_ok (q : Queue) (hwf : q.sourceWf)
    (hn : 0 < q.num_subjects) :
    ∃ b q', q.get_next_subject_sample = .ok b q' ∧ subjectOk b = true ∧
      q'.sourceWf ∧ q.sameConfig q' ∧
      q'.patches_list = q.patches_list ∧
      q'.num_sampled_patches = q.num_sampled_patches ∧
      q'.warningsEmitted = q.warningsEmitted := by
  obtain ⟨hit, hds, hps, hlen⟩ := hwf
  cases hq : q.subjects_iterable with
  | cons b rest =>
    have hb : subjectOk b = true := hit b (by rw [hq]; exact List.mem_cons_self ..)
    obtain ⟨t, hlook, hnd⟩ := subjectOk_spec b hb
    refine ⟨b, { q with subjects_iterable := rest }, ?_, hb,
      ⟨?_, hds, hps, hlen⟩, sameConfig_refl q, rfl, rfl, rfl⟩
    · simp only [Queue.get_next_subject_sample, hq, squeeze_collate, hlook, hnd,
        if_true]
    · intro s hs
      exact hit s (by rw [hq]; exact List.mem_cons_of_mem _ hs)
  | nil =>
    have hplen : (if q.shuffle_dataset then q.passes q.passCount
        else q.subjects_dataset).length = q.subjects_dataset.length := by
      by_cases hsh : q.shuffle_dataset
      · simp [hsh, hlen]
      · simp [hsh]
    have hpok : ∀ s ∈ (if q.shuffle_dataset then q.passes q.passCount
        else q.subjects_dataset), subjectOk s = true := by
      intro s hs
      by_cases hsh : q.shuffle_dataset
      · exact hps _ s (by simpa [hsh] using hs)
      · exact hds s (by simpa [hsh] using hs)
    cases hp : (if q.shuffle_dataset then q.passes q.passCount
        else q.subjects_dataset) with
    | nil =>
      rw [hp] at hplen
      simp only [List.length_nil] at hplen
      exact absurd hn (by simp [Queue.num_subjects, ← hplen])
    | cons b rest =>
      have hb : subjectOk b = true := hpok b (by rw [hp]; exact List.mem_cons_self ..)
      obtain ⟨t, hlook, hnd⟩ := subjectOk_spec b hb
      refine ⟨b, { q with passCount := q.passCount + 1, subjects_iterable := rest },
        ?_, hb, ⟨?_, hds, hps, hlen⟩, sameConfig_refl q, rfl, rfl, rfl⟩
      · simp only [Queue.get_next_subject_sample, Queue.get_subjects_iterable, hq, hp,
          squeeze_collate, hlook, hnd, if_true]
      · intro s hs
        exact hpok s (by rw [hp]; exact List.mem_cons_of_mem _ hs)

/-- Running the fill loop `m` times on a well-formed non-empty source draws
exactly `m` subjects and appends, per drawn subject, the first
`samples_per_volume` patches its sampler yields. -/
theorem fillLoop_ok (sampler : Subject → Nat → List Patch) (ps spv m : Nat)
    (q : Queue) (hwf : q.sourceWf) (hn : 0 < q.num_subjects) :
    ∃ (drawn : List Subject) (q' : Queue),
      Queue.fillLoop sampler ps spv m q = .ok () q' ∧
      drawn.length = m ∧
      q'.patches_list = q.patches_list ++
        drawn.flatMap (fun b => (sampler b ps).take spv) ∧
      (∀ b ∈ drawn, subjectOk b = true) ∧
      q'.sourceWf ∧ q.sameConfig q' ∧
      q'.num_sampled_patches = q.num_sampled_patches ∧
      q'.warningsEmitted = q.warningsEmitted := by
  induction m generalizing q with
  | zero =>
    exact ⟨[], q, rfl, rfl, by simp, by simp, hwf, sameConfig_refl q, rfl, rfl⟩
  | succ n ih =>
    obtain ⟨b, q1, hgn, hb, hwf1, hcfg1, hpl1, hns1, hw1⟩ :=
      get_next_subject_sample_ok q hwf hn
    have hwf2 : (Queue.sourceWf
        { q1 with patches_list := q1.patches_list ++ (sampler b ps).take spv }) := hwf1
    have hn2 : 0 < Queue.num_subjects
        { q1 with patches_list := q1.patches_list ++ (sampler b ps).take spv } := by
      show 0 < q1.subjects_dataset.length
      rw [hcfg1.1]
      exact hn
    obtain ⟨drawn, q', heq, hlen, hpl, hok, hwf', hcfg', hns', hw'⟩ :=
      ih { q1 with patches_list := q1.patches_list ++ (sampler b ps).take spv }
        hwf2 hn2
    refine ⟨b :: drawn, q', ?_, by simp [hlen], ?_, ?_, hwf',
      sameConfig_trans hcfg1 hcfg', by rw [hns', hns1], by rw [hw', hw1]⟩
    · simp only [Queue.fillLoop, hgn]
      exact heq
    · rw [hpl]
      simp only [hpl1, List.flatMap_cons, List.append_assoc]
    · intro s hs
      rcases List.mem_cons.mp hs with h | h
      · exact h ▸ hb
      · exact hok s h

/-- `fill` on a well-formed non-empty source with all parameters provided:
it succeeds, draws exactly
`min(num_subjects, max_length // samples_per_volume)` subjects, appends
their patch batches, emits the divisibility warning exactly when
`max_length % samples_per_volume != 0`, and leaves the configuration, the
sample counter and the source well-formedness intact. -/
theorem fill_ok (q : Queue) (sampler : Subject → Nat → List Patch)
    (ps spv maxLen : Nat)
    (hs : q.sampler_class = some sampler) (hp : q.patch_size = some ps)
    (hm : q.max_length = some maxLen) (hv : q.samples_per_volume = some spv)
    (h0 : 0 < spv) (hwf : q.sourceWf) (hn : 0 < q.num_subjects) :
    ∃ (drawn : List Subject) (q' : Queue),
      q.fill = .ok () q' ∧
      drawn.length = min q.num_subjects (maxLen / spv) ∧
      q'.patches_list = q.patches_list ++
        drawn.flatMap (fun b => (sampler b ps).take spv) ∧
      (∀ b ∈ drawn, subjectOk b = true) ∧
      q'.sourceWf ∧ q.sameConfig q' ∧
      q'.num_sampled_patches = q.num_sampled_patches ∧
      q'.warningsEmitted = q.warningsEmitted ++
        (if maxLen % spv ≠ 0 then [divisibilityMessage spv maxLen] else []) := by
  have h0' : ¬ spv = 0 := Nat.pos_iff_ne_zero.mp h0
  by_cases hdiv : maxLen % spv = 0
  · have hq1 : q.fill = Queue.fillLoop sampler ps spv
        (min q.num_subjects (maxLen / spv)) q := by
      simp only [Queue.fill, hs, hp, hm, hv, if_neg h0', hdiv, ne_eq,
        not_true_eq_false, if_neg, ite_false]
    obtain ⟨drawn, q', heq, hlen, hpl, hok, hwf', hcfg', hns', hw'⟩ :=
      fillLoop_ok sampler ps spv (min q.num_subjects (maxLen / spv)) q hwf hn
    exact ⟨drawn, q', hq1 ▸ heq, hlen, hpl, hok, hwf', hcfg', hns',
      by simp [hw', hdiv]⟩
  · have hq1 : q.fill = Queue.fillLoop sampler ps spv
        (min q.num_subjects (maxLen / spv))
        { q with warningsEmitted :=
            q.warningsEmitted ++ [divisibilityMessage spv maxLen] } := by
      simp only [Queue.fill, hs, hp, hm, hv, if_neg h0', ne_eq, hdiv,
        not_false_eq_true, if_true]
    have hwf1 : (Queue.sourceWf { q with warningsEmitted :=
        q.warningsEmitted ++ [divisibilityMessage spv maxLen] }) := hwf
    have hn1 : 0 < Queue.num_subjects { q with warningsEmitted :=
        q.warningsEmitted ++ [divisibilityMessage spv maxLen] } := hn
    obtain ⟨drawn, q', heq, hlen, hpl, hok, hwf', hcfg', hns', hw'⟩ :=
      fillLoop_ok sampler ps spv (min q.num_subjects (maxLen / spv)) _ hwf1 hn1
    exact ⟨drawn, q', hq1 ▸ heq, hlen, hpl, hok, hwf',
      sameConfig_trans (sameConfig_refl _) hcfg', hns', by simp [hw', hdiv]⟩

/-- `get_next_subject_sample` never changes the dataset, the configured
`samples_per_volume` or the sample counter, whether it returns or raises. -/
theorem get_next_subject_sample_preserves (q : Queue) :
    (q.get_next_subject_sample).finalState.subjects_dataset = q.subjects_dataset ∧
    (q.get_next_subject_sample).finalState.samples_per_volume = q.samples_per_volume ∧
    (q.get_next_subject_sample).finalState.num_sampled_patches = q.num_sampled_patches := by
  unfold Queue.get_next_subject_sample Queue.get_subjects_iterable
  cases hq : q.subjects_iterable with
  | cons b rest =>
    cases hsb : squeeze_batch (collate b) 0 with
    | error e => simp [hsb, PyResult.finalState]
    | ok sample =>
      cases hl : List.lookup "image" sample with
      | none => simp [hsb, hl, PyResult.finalState]
      | some t =>
        by_cases hnd : t.ndim = 4
        · simp [hsb, hl, hnd, PyResult.finalState]
        · simp [hsb, hl, hnd, PyResult.finalState]
  | nil =>
    cases hp : (if q.shuffle_dataset then q.passes q.passCount
        else q.subjects_dataset) with
    | nil => simp [hp, PyResult.finalState]
    | cons b rest =>
      cases hsb : squeeze_batch (collate b) 0 with
      | error e => simp [hp, hsb, PyResult.finalState]
      | ok sample =>
        cases hl : List.lookup "image" sample with
        | none => simp [hp, hsb, hl, PyResult.finalState]
        | some t =>
          by_cases hnd : t.ndim = 4
          · simp [hp, hsb, hl, hnd, PyResult.finalState]
          · simp [hp, hsb, hl, hnd, PyResult.finalState]

/-- The fill loop never changes the dataset, `samples_per_volume` or the
sample counter, whether it completes or raises part-way. -/
theorem fillLoop_preserves (sampler : Subject → Nat → List Patch)
    (ps spv m : Nat) (q : Queue) :
    (Queue.fillLoop sampler ps spv m q).finalState.subjects_dataset = q.subjects_dataset ∧
    (Queue.fillLoop sampler ps spv m q).finalState.samples_per_volume = q.samples_per_volume ∧
    (Queue.fillLoop sampler ps spv m q).finalState.num_sampled_patches = q.num_sampled_patches := by
  induction m generalizing q with
  | zero => exact ⟨rfl, rfl, rfl⟩
  | succ n ih =>
    have h := get_next_subject_sample_preserves q
    cases hg : q.get_next_subject_sample with
    | err e s =>
      rw [hg] at h
      simp only [Queue.fillLoop, hg]
      exact h
    | ok b q1 =>
      rw [hg] at h
      obtain ⟨h1, h2, h3⟩ := h
      simp only [Queue.fillLoop, hg]
      obtain ⟨i1, i2, i3⟩ := ih
        { q1 with patches_list := q1.patches_list ++ (sampler b ps).take spv }
      exact ⟨i1.trans h1, i2.trans h2, i3.trans h3⟩

/-- `fill` never changes the dataset, `samples_per_volume` or the sample
counter, whether it completes or raises. -/
theorem fill_preserves (q : Queue) :
    (q.fill).finalState.subjects_dataset = q.subjects_dataset ∧
    (q.fill).finalState.samples_per_volume = q.samples_per_volume ∧
    (q.fill).finalState.num_sampled_patches = q.num_sampled_patches := by
  unfold Queue.fill
  split
  · exact ⟨rfl, rfl, rfl⟩
  · split
    · exact ⟨rfl, rfl, rfl⟩
    · split
      · exact ⟨rfl, rfl, rfl⟩
      · exact ⟨rfl, rfl, rfl⟩
      · split
        · exact ⟨rfl, rfl, rfl⟩
        · split
          · exact fillLoop_preserves _ _ _ _ _
          · exact fillLoop_preserves _ _ _ _ _

/-- `__getitem__` never changes the dataset or the configured
`samples_per_volume`, whether it returns a patch or raises. -/
theorem getItem_preserves (q : Queue) (idx : Nat) :
    (q.getItem idx).finalState.subjects_dataset = q.subjects_dataset ∧
    (q.getItem idx).finalState.samples_per_volume = q.samples_per_volume := by
  unfold Queue.getItem
  cases hf : (if q.patches_list.isEmpty then q.fill else .ok () q) with
  | err e s =>
    by_cases hemp : q.patches_list.isEmpty = true
    · rw [if_pos hemp] at hf
      have h := fill_preserves q
      rw [hf] at h
      exact ⟨h.1, h.2.1⟩
    · rw [if_neg hemp] at hf
      cases hf
  | ok u q1 =>
    have hq1 : q1.subjects_dataset = q.subjects_dataset ∧
        q1.samples_per_volume = q.samples_per_volume := by
      by_cases hemp : q.patches_list.isEmpty = true
      · rw [if_pos hemp] at hf
        have h := fill_preserves q
        rw [hf] at h
        exact ⟨h.1, h.2.1⟩
      · rw [if_neg hemp] at hf
        cases hf
        exact ⟨rfl, rfl⟩
    show (q1.popStage).finalState.subjects_dataset = q.subjects_dataset ∧
      (q1.popStage).finalState.samples_per_volume = q.samples_per_volume
    unfold Queue.popStage
    cases ht : tracePatches q1.patches_list with
    | error e => exact hq1
    | ok out =>
      cases hl : q1.patches_list.getLast? with
      | none => exact hq1
      | some p => exact hq1

/-- The only exceptions one traced patch can raise are a missing
`'path'` key and a non-string `'path'` value. -/
theorem tracePatch_err (p : Patch) (e : PyErr) (h : tracePatch p = .error e) :
    e = .keyError "path" ∨ e = .attributeError := by
  unfold tracePatch at h
  cases hl : List.lookup "path" p with
  | none =>
    rw [hl] at h
    cases h
    exact .inl rfl
  | some v =>
    cases v with
    | str s => rw [hl] at h; cases h
    | tensor t =>
      rw [hl] at h
      cases h
      exact .inr rfl

/-- The only exceptions the traced list comprehension can raise are a
missing `'path'` key and a non-string `'path'` value. -/
theorem tracePatches_err (l : List Patch) (e : PyErr)
    (h : tracePatches l = .error e) :
    e = .keyError "path" ∨ e = .attributeError := by
  induction l with
  | nil => simp [tracePatches] at h
  | cons p rest ih =>
    unfold tracePatches at h
    cases hp : tracePatch p with
    | error e1 =>
      rw [hp] at h
      cases h
      exact tracePatch_err p _ hp
    | ok s =>
      rw [hp] at h
      cases hr : tracePatches rest with
      | error e2 =>
        rw [hr] at h
        cases h
        exact ih hr
      | ok ss => rw [hr] at h; cases h

/-- When every buffered patch has a string `'path'`, the trace succeeds. -/
theorem tracePatches_ok (l : List Patch)
    (h : ∀ p ∈ l, ∃ str, List.lookup "path" p = some (.str str)) :
    ∃ out, tracePatches l = .ok out := by
  induction l with
  | nil => exact ⟨[], rfl⟩
  | cons p rest ih =>
    obtain ⟨str, hstr⟩ := h p (List.mem_cons_self ..)
    obtain ⟨out, hout⟩ := ih (fun p hp => h p (List.mem_cons_of_mem _ hp))
    refine ⟨((str.splitOn "_").getLastD "") :: out, ?_⟩
    unfold tracePatches tracePatch
    rw [hstr, hout]

/-- Unfolding `__getitem__` when the fill stage raised. -/
theorem getItem_eq_err (q : Queue) (idx : Nat) (e : PyErr) (s : Queue)
    (hf : (if q.patches_list.isEmpty then q.fill else .ok () q) = .err e s) :
    q.getItem idx = .err e s := by
  unfold Queue.getItem
  rw [hf]

/-- Unfolding `__getitem__` when the fill stage returned. -/
theorem getItem_eq_ok (q : Queue) (idx : Nat) (u : Unit) (q1 : Queue)
    (hf : (if q.patches_list.isEmpty then q.fill else .ok () q) = .ok u q1) :
    q.getItem idx = q1.popStage := by
  unfold Queue.getItem
  rw [hf]

/-- On a well-formed non-empty source, `fill` never raises `StopIteration`
(the embedding of the exhausted-source exception), and when it returns the
source stays well formed and non-empty. -/
theorem fill_step (q : Queue) (hwf : q.sourceWf) (hn : 0 < q.num_subjects) :
    (∀ s : Queue, q.fill ≠ .err .stopIteration s) ∧
    (∀ (u : Unit) (qm : Queue), q.fill = .ok u qm →
      qm.sourceWf ∧ 0 < qm.num_subjects) := by
  cases hs : q.sampler_class with
  | none =>
    have hq : q.fill = .err (.assertionError samplerAssertMsg) q := by
      unfold Queue.fill
      rw [hs]
    constructor
    · intro s h
      rw [hq] at h
      simp at h
    · intro u qm h
      rw [hq] at h
      simp at h
  | some sampler =>
    cases hp : q.patch_size with
    | none =>
      have hq : q.fill = .err (.assertionError patchSizeAssertMsg) q := by
        unfold Queue.fill
        rw [hs, hp]
      constructor
      · intro s h
        rw [hq] at h
        simp at h
      · intro u qm h
        rw [hq] at h
        simp at h
    | some ps =>
      cases hm : q.max_length with
      | none =>
        have hq : q.fill = .err .typeError q := by
          unfold Queue.fill
          rw [hs, hp, hm]
        constructor
        · intro s h
          rw [hq] at h
          simp at h
        · intro u qm h
          rw [hq] at h
          simp at h
      | some maxLen =>
        cases hv : q.samples_per_volume with
        | none =>
          have hq : q.fill = .err .typeError q := by
            unfold Queue.fill
            rw [hs, hp, hm, hv]
          constructor
          · intro s h
            rw [hq] at h
            simp at h
          · intro u qm h
            rw [hq] at h
            simp at h
        | some spv =>
          by_cases h0 : spv = 0
          · have hq : q.fill = .err .zeroDivisionError q := by
              unfold Queue.fill
              rw [hs, hp, hm, hv]
              simp [h0]
            constructor
            · intro s h
              rw [hq] at h
              simp at h
            · intro u qm h
              rw [hq] at h
              simp at h
          · obtain ⟨drawn, q', heq, _, _, _, hwf', hcfg', _, _⟩ :=
              fill_ok q sampler ps spv maxLen hs hp hm hv
                (Nat.pos_of_ne_zero h0) hwf hn
            constructor
            · intro s h
              rw [heq] at h
              simp at h
            · intro u qm h
              rw [heq] at h
              cases h
              refine ⟨hwf', ?_⟩
              show 0 < q'.subjects_dataset.length
              rw [hcfg'.1]
              exact hn

/-- The trace-and-pop stage never raises `StopIteration`, and a successful
pop keeps the source well formed and non-empty. -/
theorem popStage_step (q1 : Queue) (hwf : q1.sourceWf)
    (hn : 0 < q1.num_subjects) :
    (∀ s : Queue, q1.popStage ≠ .err .stopIteration s) ∧
    (∀ (p : Patch) (q' : Queue), q1.popStage = .ok p q' →
      q'.sourceWf ∧ 0 < q'.num_subjects) := by
  unfold Queue.popStage
  cases ht : tracePatches q1.patches_list with
  | error e =>
    refine ⟨?_, ?_⟩
    · intro s h
      rcases tracePatches_err _ _ ht with he | he <;> subst he <;> simp at h
    · intro p q' h
      simp at h
  | ok out =>
    cases hl : q1.patches_list.getLast? with
    | none =>
      refine ⟨?_, ?_⟩
      · intro s h
        simp at h
      · intro p q' h
        simp at h
    | some p0 =>
      refine ⟨?_, ?_⟩
      · intro s h
        simp at h
      · intro p q' h
        cases h
        exact ⟨hwf, hn⟩

/-- One `__getitem__` call on a well-formed non-empty source never raises
`StopIteration`, and on success keeps the source well formed and
non-empty. -/
theorem getItem_step (q : Queue) (hwf : q.sourceWf) (hn : 0 < q.num_subjects)
    (idx : Nat) :
    (∀ s : Queue, q.getItem idx ≠ .err .stopIteration s) ∧
    (∀ (p : Patch) (q' : Queue), q.getItem idx = .ok p q' →
      q'.sourceWf ∧ 0 < q'.num_subjects) := by
  cases hf : (if q.patches_list.isEmpty then q.fill else .ok () q) with
  | err e s0 =>
    have hg := getItem_eq_err q idx e s0 hf
    have hne : e ≠ .stopIteration := by
      by_cases hemp : q.patches_list.isEmpty = true
      · rw [if_pos hemp] at hf
        intro he
        subst he
        exact (fill_step q hwf hn).1 s0 hf
      · rw [if_neg hemp] at hf
        simp at hf
    refine ⟨?_, ?_⟩
    · intro s h
      rw [hg] at h
      injection h with h1 h2
      exact hne h1
    · intro p q' h
      rw [hg] at h
      simp at h
  | ok u q1 =>
    have hg := getItem_eq_ok q idx u q1 hf
    have hq1 : q1.sourceWf ∧ 0 < q1.num_subjects := by
      by_cases hemp : q.patches_list.isEmpty = true
      · rw [if_pos hemp] at hf
        exact (fill_step q hwf hn).2 u q1 hf
      · rw [if_neg hemp] at hf
        cases hf
        exact ⟨hwf, hn⟩
    obtain ⟨h1, h2⟩ := popStage_step q1 hq1.1 hq1.2
    refine ⟨?_, ?_⟩
    · intro s h
      rw [hg] at h
      exact h1 s h
    · intro p q' h
      rw [hg] at h
      exact h2 p q' h

/-- Any number of successive `__getitem__` calls on a well-formed
non-empty source never surfaces `StopIteration`. -/
theorem popN_no_stop (n : Nat) (q : Queue) (hwf : q.sourceWf)
    (hn : 0 < q.num_subjects) :
    ∀ s : Queue, q.popN n ≠ .err .stopIteration s := by
  induction n generalizing q with
  | zero =>
    intro s h
    simp [Queue.popN] at h
  | succ m ih =>
    intro s h
    unfold Queue.popN at h
    cases hg : q.getItem 0 with
    | ok p q' =>
      rw [hg] at h
      obtain ⟨hwf', hn'⟩ := (getItem_step q hwf hn 0).2 p q' hg
      exact ih q' hwf' hn' s h
    | err e s' =>
      rw [hg] at h
      injection h with h1 h2
      subst h1
      exact (getItem_step q hwf hn 0).1 s' hg

/-- Length of a flat map whose pieces all have length `c`. -/
theorem length_flatMap_const (l : List Subject) (f : Subject → List Patch)
    (c : Nat) (h : ∀ b, (f b).length = c) :
    (l.flatMap f).length = l.length * c := by
  induction l with
  | nil => simp
  | cons b rest ih =>
    simp only [List.flatMap_cons, List.length_append, List.length_cons, ih,
      h b, Nat.succ_mul]
    exact Nat.add_comm _ _

/-- Length bound of a flat map whose pieces have length at most `c`. -/
theorem length_flatMap_le (l : List Subject) (f : Subject → List Patch)
    (c : Nat) (h : ∀ b, (f b).length ≤ c) :
    (l.flatMap f).length ≤ l.length * c := by
  induction l with
  | nil => simp
  | cons b rest ih =>
    simp only [List.flatMap_cons, List.length_append, List.length_cons,
      Nat.succ_mul]
    calc (f b).length + (rest.flatMap f).length ≤ c + rest.length * c :=
          Nat.add_le_add (h b) ih
      _ = rest.length * c + c := Nat.add_comm _ _

/-- Claim C1: every refill triggered on an empty buffer draws exactly
`min(source_item_count(), capacity // sub_items_per_source)` source items;
afterwards `buffered_count()` equals that number times the actual
(possibly short) per-item batch size the strategy returned, and in
particular never exceeds the capacity. -/
theorem C1_refill_sizing (q : Queue) (sampler : Subject → Nat → List Patch)
    (ps spv maxLen kp : Nat)
    (hempty : q.patches_list = [])
    (hs : q.sampler_class = some sampler) (hp : q.patch_size = some ps)
    (hm : q.max_length = some maxLen) (hv : q.samples_per_volume = some spv)
    (h0 : 0 < spv) (hwf : q.sourceWf) (hn : 0 < q.num_subjects)
    (hk : ∀ b : Subject, ((sampler b ps).take spv).length = kp) :
    ∃ (drawn : List Subject) (q' : Queue),
      q.fill = .ok () q' ∧
      drawn.length = min q.num_subjects (maxLen / spv) ∧
      q'.num_patches = min q.num_subjects (maxLen / spv) * kp ∧
      q'.num_patches ≤ maxLen := by
  obtain ⟨drawn, q', heq, hlen, hpl, hok, hwf', hcfg', hns', hw'⟩ :=
    fill_ok q sampler ps spv maxLen hs hp hm hv h0 hwf hn
  have hkspv : kp ≤ spv := by
    have h1 := hk []
    rw [List.length_take] at h1
    omega
  have hnum : q'.num_patches = min q.num_subjects (maxLen / spv) * kp := by
    show q'.patches_list.length = _
    rw [hpl, hempty, List.nil_append,
      length_flatMap_const drawn _ kp (fun b => hk b), hlen]
  refine ⟨drawn, q', heq, hlen, hnum, ?_⟩
  rw [hnum]
  calc min q.num_subjects (maxLen / spv) * kp ≤ (maxLen / spv) * spv :=
        Nat.mul_le_mul (Nat.min_le_right _ _) hkspv
    _ ≤ maxLen := Nat.div_mul_le_self maxLen spv

/-- Concrete subject used by the C1 witness. -/
def C1subj : Subject := [("image", ⟨[1, 4, 4, 4]⟩)]

/-- Concrete patch used by the C1 witness. -/
def C1patch : Patch := [("path", PatchVal.str "img_0")]

/-- Concrete queue used by the C1 witness. -/
def C1q : Queue := Queue.init [C1subj] (fun _ => [C1subj]) (some 2) (some 2)
  (some 0) (some (fun _ _ => [C1patch])) 0 false false

/-- Witness for C1 at a concrete queue (1 subject, capacity 2, 2 samples
per volume, strategy yielding a short batch of 1). -/
theorem C1_refill_sizing_witness :
    ∃ (drawn : List Subject) (q' : Queue),
      C1q.fill = .ok () q' ∧
      drawn.length = min C1q.num_subjects (2 / 2) ∧
      q'.num_patches = min C1q.num_subjects (2 / 2) * 1 ∧
      q'.num_patches ≤ 2 :=
  C1_refill_sizing C1q (fun _ _ => [C1patch]) 0 2 2 1 rfl rfl rfl rfl rfl
    (by omega)
    (by
      refine ⟨fun s hs => ?_, fun s hs => ?_, fun k s hs => ?_, fun k => rfl⟩
      all_goals
        have hs2 : s ∈ [C1subj] := hs
        simp only [List.mem_singleton] at hs2
        subst hs2
        decide)
    (by decide)
    (fun b => rfl)

/-- Claim C2: a successful `pop_next()` runs the refill exactly when the
buffer was empty at the start of the call, returns the last buffered
sub-item, shrinks the buffer by exactly one relative to its post-refill
state, and increments the lifetime sampled count by exactly one. -/
theorem C2_pop_contract (q q' : Queue) (p : Patch) (idx : Nat)
    (h : q.getItem idx = .ok p q') :
    ∃ qm : Queue,
      (if q.patches_list.isEmpty then q.fill else .ok () q) = .ok () qm ∧
      (q.patches_list.isEmpty = false → qm = q) ∧
      qm.patches_list.getLast? = some p ∧
      q'.patches_list = qm.patches_list.dropLast ∧
      q'.num_patches + 1 = qm.num_patches ∧
      qm.num_sampled_patches = q.num_sampled_patches ∧
      q'.num_sampled_patches = q.num_sampled_patches + 1 := by
  cases hf : (if q.patches_list.isEmpty then q.fill else .ok () q) with
  | err e s0 =>
    rw [getItem_eq_err q idx e s0 hf] at h
    simp at h
  | ok u q1 =>
    cases u
    rw [getItem_eq_ok q idx () q1 hf] at h
    have hcnt : q1.num_sampled_patches = q.num_sampled_patches := by
      by_cases hemp : q.patches_list.isEmpty = true
      · rw [if_pos hemp] at hf
        have hpres := fill_preserves q
        rw [hf] at hpres
        exact hpres.2.2
      · rw [if_neg hemp] at hf
        injection hf with h1 h2
        rw [h2]
    unfold Queue.popStage at h
    cases ht : tracePatches q1.patches_list with
    | error e =>
      rw [ht] at h
      simp at h
    | ok out =>
      rw [ht] at h
      cases hl : q1.patches_list.getLast? with
      | none =>
        rw [hl] at h
        simp at h
      | some p0 =>
        rw [hl] at h
        cases h
        have hne : q1.patches_list ≠ [] := by
          intro hnil
          rw [hnil] at hl
          simp at hl
        refine ⟨q1, rfl, ?_, hl, rfl, ?_, hcnt, ?_⟩
        · intro hemp
          rw [hemp] at hf
          simp at hf
          exact hf.symm
        · show q1.patches_list.dropLast.length + 1 = q1.patches_list.length
          rw [List.length_dropLast]
          have := List.length_pos.mpr hne
          omega
        · show q1.num_sampled_patches + 1 = q.num_sampled_patches + 1
          rw [hcnt]

/-- Concrete patch used by the C2 witness. -/
def C2patch : Patch := [("path", PatchVal.str "img_3")]

/-- Concrete queue (non-empty buffer) used by the C2 witness. -/
def C2q : Queue :=
  { subjects_dataset := [], max_length := some 4, shuffle_dataset := false,
    samples_per_volume := some 2, sampler_class := none, patch_size := some 0,
    num_workers := 0, verbose := false, passes := fun _ => [], passCount := 1,
    subjects_iterable := [], patches_list := [C2patch],
    num_sampled_patches := 7, warningsEmitted := [] }

/-- The state of the C2 witness queue after the pop. -/
def C2qAfter : Queue :=
  { C2q with patches_list := C2q.patches_list.dropLast,
             num_sampled_patches := C2q.num_sampled_patches + 1 }

/-- Witness for C2 at a concrete queue with a one-patch buffer. -/
theorem C2_pop_contract_witness :
    ∃ qm : Queue,
      (if C2q.patches_list.isEmpty then C2q.fill else .ok () C2q) = .ok () qm ∧
      (C2q.patches_list.isEmpty = false → qm = C2q) ∧
      qm.patches_list.getLast? = some C2patch ∧
      C2qAfter.patches_list = qm.patches_list.dropLast ∧
      C2qAfter.num_patches + 1 = qm.num_patches ∧
      qm.num_sampled_patches = C2q.num_sampled_patches ∧
      C2qAfter.num_sampled_patches = C2q.num_sampled_patches + 1 :=
  C2_pop_contract C2q C2qAfter C2patch 0 rfl

/-- Claim C3: with `source_item_count() > 0` and a loader honouring its
contract, `logical_length() * 3` successive pops never surface
`StopIteration` (the embedding of `EmptySourceError`): on end of a pass
the source cycle builds a fresh pass internally. -/
theorem C3_no_starvation (q : Queue) (L : Nat) (s : Queue)
    (hwf : q.sourceWf) (hn : 0 < q.num_subjects)
    (hL : q.iterations_per_epoch = .ok L) :
    q.popN (L * 3) ≠ .err .stopIteration s :=
  popN_no_stop (L * 3) q hwf hn s

/-- Concrete subject used by the C3 witness. -/
def C3subj : Subject := [("image", ⟨[1, 2, 2, 2]⟩)]

/-- Concrete queue used by the C3 witness (1 subject, 2 samples per
volume, so one epoch is 2 pops and three epochs are 6). -/
def C3q : Queue := Queue.init [C3subj] (fun _ => [C3subj]) (some 2) (some 2)
  (some 0) (some (fun _ _ => [[("path", PatchVal.str "s_1")]])) 0 true false

/-- Witness for C3 at a concrete queue. -/
theorem C3_no_starvation_witness :
    C3q.popN (2 * 3) ≠ .err .stopIteration C3q :=
  C3_no_starvation C3q 2 C3q
    (by
      refine ⟨fun s hs => ?_, fun s hs => ?_, fun k s hs => ?_, fun k => rfl⟩
      all_goals
        have hs2 : s ∈ [C3subj] := hs
        simp only [List.mem_singleton] at hs2
        subst hs2
        decide)
    (by decide)
    rfl

/-- Claim C9: `logical_length()` equals
`source_item_count() * sub_items_per_source`, independent of the buffer
contents and of how many pops have occurred (any `__getitem__` call, even
a failing one, leaves it unchanged). -/
theorem C9_logical_length (q : Queue) (spv : Nat) (idx : Nat)
    (h : q.samples_per_volume = some spv) :
    q.len = .ok (q.num_subjects * spv) ∧
    ((q.getItem idx).finalState).len = q.len := by
  have h1 : q.len = .ok (q.num_subjects * spv) := by
    unfold Queue.len Queue.iterations_per_epoch
    rw [h]
  refine ⟨h1, ?_⟩
  obtain ⟨hd, hv2⟩ := getItem_preserves q idx
  have h2 : ((q.getItem idx).finalState).len =
      .ok (((q.getItem idx).finalState).num_subjects * spv) := by
    unfold Queue.len Queue.iterations_per_epoch
    rw [hv2, h]
  rw [h2, h1]
  unfold Queue.num_subjects
  rw [hd]

/-- Concrete subject used by the C9 witness. -/
def C9subj : Subject := [("image", ⟨[1, 3, 3, 3]⟩)]

/-- Concrete queue used by the C9 witness. -/
def C9q : Queue := Queue.init [C9subj, C9subj] (fun _ => [C9subj, C9subj])
  (some 6) (some 3) (some 0) (some (fun _ _ => [])) 0 false false

/-- Witness for C9 at a concrete queue. -/
theorem C9_logical_length_witness :
    C9q.len = .ok (C9q.num_subjects * 3) ∧
    ((C9q.getItem 0).finalState).len = C9q.len :=
  C9_logical_length C9q 3 0 rfl

/-- When the refill's target source-item count is zero, a pop on an empty
buffer is a no-op refill followed by the empty-pop `IndexError`: nothing
is drawn (iterable and pass counter unchanged) and nothing is buffered or
counted. -/
theorem pop_starved (q : Queue) (sampler : Subject → Nat → List Patch)
    (ps spv maxLen : Nat)
    (hempty : q.patches_list = [])
    (hs : q.sampler_class = some sampler) (hp : q.patch_size = some ps)
    (hm : q.max_length = some maxLen) (hv : q.samples_per_volume = some spv)
    (h0 : 0 < spv)
    (htar : min q.num_subjects (maxLen / spv) = 0) :
    ∃ s : Queue, q.getItem 0 = .err .indexError s ∧
      s.patches_list = [] ∧
      s.subjects_iterable = q.subjects_iterable ∧
      s.passCount = q.passCount ∧
      s.num_sampled_patches = q.num_sampled_patches := by
  have h0' : ¬ spv = 0 := Nat.pos_iff_ne_zero.mp h0
  have hemp : q.patches_list.isEmpty = true := by rw [hempty]; rfl
  by_cases hdiv : maxLen % spv = 0
  · have hcond : ¬(maxLen % spv ≠ 0) := by omega
    have hfill : q.fill = .ok () q := by
      unfold Queue.fill
      rw [hs, hp, hm, hv]
      simp only [if_neg h0', if_neg hcond]
      rw [htar]
      rfl
    have hgi := getItem_eq_ok q 0 () q (by rw [if_pos hemp, hfill])
    have hpop : q.popStage = .err .indexError q := by
      unfold Queue.popStage
      rw [hempty]
      rfl
    exact ⟨q, hgi.trans hpop, hempty, rfl, rfl, rfl⟩
  · have hcond : maxLen % spv ≠ 0 := hdiv
    have hfill : q.fill = .ok ()
        { q with warningsEmitted :=
            q.warningsEmitted ++ [divisibilityMessage spv maxLen] } := by
      unfold Queue.fill
      rw [hs, hp, hm, hv]
      simp only [if_neg h0', if_pos hcond]
      rw [htar]
      rfl
    have hgi := getItem_eq_ok q 0 ()
        { q with warningsEmitted :=
            q.warningsEmitted ++ [divisibilityMessage spv maxLen] }
        (by rw [if_pos hemp, hfill])
    have hpop : (Queue.popStage
        { q with warningsEmitted :=
            q.warningsEmitted ++ [divisibilityMessage spv maxLen] }) =
        .err .indexError
          { q with warningsEmitted :=
              q.warningsEmitted ++ [divisibilityMessage spv maxLen] } := by
      unfold Queue.popStage
      rw [show ({ q with warningsEmitted :=
          q.warningsEmitted ++ [divisibilityMessage spv maxLen] } :
          Queue).patches_list = [] from hempty]
      rfl
    exact ⟨_, hgi.trans hpop, hempty, rfl, rfl, rfl⟩

/-- Claim C5: with `capacity // sub_items_per_source == 0`, a
`pop_next()` on an empty buffer performs a refill that draws zero source
items (a no-op: iterable, pass counter, buffer and sample counter are
unchanged) and then fails with the empty-pop `IndexError` (the embedding
of `StarvedPopError`), rather than silently looping. -/
theorem C5_starved_pop (q : Queue) (sampler : Subject → Nat → List Patch)
    (ps spv maxLen : Nat)
    (hempty : q.patches_list = [])
    (hs : q.sampler_class = some sampler) (hp : q.patch_size = some ps)
    (hm : q.max_length = some maxLen) (hv : q.samples_per_volume = some spv)
    (h0 : 0 < spv) (hdiv0 : maxLen / spv = 0) :
    ∃ s : Queue, q.getItem 0 = .err .indexError s ∧
      s.patches_list = [] ∧
      s.subjects_iterable = q.subjects_iterable ∧
      s.passCount = q.passCount ∧
      s.num_sampled_patches = q.num_sampled_patches :=
  pop_starved q sampler ps spv maxLen hempty hs hp hm hv h0
    (by rw [hdiv0]; exact Nat.min_zero _)

/-- Concrete subject used by the C5 witness. -/
def C5subj : Subject := [("image", ⟨[1, 2, 2, 2]⟩)]

/-- Concrete queue used by the C5 witness: capacity 2 is smaller than one
batch of 3 sub-items per source. -/
def C5q : Queue := Queue.init [C5subj] (fun _ => [C5subj]) (some 2) (some 3)
  (some 0) (some (fun _ _ => [[("path", PatchVal.str "x_0")]])) 0 false false

/-- Witness for C5 at a concrete queue. -/
theorem C5_starved_pop_witness :
    ∃ s : Queue, C5q.getItem 0 = .err .indexError s ∧
      s.patches_list = [] ∧
      s.subjects_iterable = C5q.subjects_iterable ∧
      s.passCount = C5q.passCount ∧
      s.num_sampled_patches = C5q.num_sampled_patches :=
  C5_starved_pop C5q (fun _ _ => [[("path", PatchVal.str "x_0")]]) 0 3 2
    rfl rfl rfl rfl rfl (by omega) rfl

/-- Concrete zero-item queue used to refute claim C4 as stated. -/
def C4q : Queue := Queue.init [] (fun _ => []) (some 4) (some 2) (some 0)
  (some (fun _ _ => [])) 0 true false

/-- Claim C4, counterexample: with a zero-item source, `pop_next()` does
not propagate the exhausted-source exception (`StopIteration`, the
spec's `EmptySourceError`); it fails with the empty-pop `IndexError`
because the refill computes zero target items and never fetches. -/
theorem C4_counterexample :
    (C4q.getItem 0).errKind = some PyErr.indexError ∧
    (C4q.getItem 0).errKind ≠ some PyErr.stopIteration := by
  constructor
  · rfl
  · decide

/-- Claim C4 amended: with a zero-item source, the fetch operation
`get_next_subject_sample` itself does fail with `StopIteration` (the
`EmptySourceError`: the fresh pass is empty too), but `pop_next()` never
reaches it — its refill computes `min(0, capacity // spv) = 0` target
items and draws nothing — so the pop surfaces the empty-pop `IndexError`
instead. -/
theorem C4_empty_source (q : Queue) (sampler : Subject → Nat → List Patch)
    (ps spv maxLen : Nat)
    (hds : q.subjects_dataset = []) (hit : q.subjects_iterable = [])
    (hpass : ∀ k, q.passes k = [])
    (hempty : q.patches_list = [])
    (hs : q.sampler_class = some sampler) (hp : q.patch_size = some ps)
    (hm : q.max_length = some maxLen) (hv : q.samples_per_volume = some spv)
    (h0 : 0 < spv) :
    (∃ s : Queue, q.get_next_subject_sample = .err .stopIteration s) ∧
    (∃ s : Queue, q.getItem 0 = .err .indexError s) := by
  constructor
  · unfold Queue.get_next_subject_sample Queue.get_subjects_iterable
    rw [hit]
    by_cases hsh : q.shuffle_dataset
    · rw [if_pos hsh, hpass q.passCount]
      exact ⟨_, rfl⟩
    · rw [if_neg hsh, hds]
      exact ⟨_, rfl⟩
  · have htar : min q.num_subjects (maxLen / spv) = 0 := by
      have : q.num_subjects = 0 := by
        show q.subjects_dataset.length = 0
        rw [hds]
        rfl
      rw [this]
      exact Nat.zero_min _
    obtain ⟨s, h1, h2, _, _, _⟩ :=
      pop_starved q sampler ps spv maxLen hempty hs hp hm hv h0 htar
    exact ⟨s, h1⟩

/-- Witness for the amended C4 at a concrete zero-item queue. -/
theorem C4_empty_source_witness :
    (∃ s : Queue, C4q.get_next_subject_sample = .err .stopIteration s) ∧
    (∃ s : Queue, C4q.getItem 0 = .err .indexError s) :=
  C4_empty_source C4q (fun _ _ => []) 0 2 4 rfl rfl (fun k => rfl) rfl
    rfl rfl rfl rfl (by omega)

/-- Concrete 4-axis and 3-axis subjects for the C6 counterexample. -/
def C6good : Subject := [("image", ⟨[1, 2, 2, 2]⟩)]

/-- A subject whose payload has 3 axes after batch-axis stripping. -/
def C6bad : Subject := [("image", ⟨[2, 2, 2]⟩)]

/-- Concrete patch for the C6 counterexample. -/
def C6patch : Patch := [("path", PatchVal.str "g_0")]

/-- Concrete queue whose second drawn item is mis-shaped. -/
def C6q : Queue := Queue.init [C6good, C6bad] (fun _ => [C6good, C6bad])
  (some 2) (some 1) (some 0) (some (fun _ _ => [C6patch])) 0 false false

/-- Claim C6, counterexample: a refill that draws a valid item before the
mis-shaped one raises the shape assertion (`ShapeMismatchError`) but HAS
mutated the buffer — the valid item's sub-item is already appended when
the exception escapes. -/
theorem C6_counterexample :
    (C6q.fill).errKind = some (PyErr.assertionError shapeAssertMsg) ∧
    C6q.num_patches = 0 ∧
    (C6q.fill).finalState.num_patches = 1 :=
  ⟨rfl, rfl, rfl⟩

/-- Claim C6 amended: a source item whose payload does not have exactly 4
axes after batch-axis stripping makes the refill raise the shape
assertion immediately — no retry, nothing of the failing item (nor of any
later item) is appended; the buffer keeps exactly the sub-items of items
drawn before it, so when the failing item is the first one drawn (here:
it is at the head of the iterable and the buffer was empty) the buffer is
unmutated, and the error propagates through `pop_next()`. -/
theorem C6_shape_rejection (q : Queue) (sampler : Subject → Nat → List Patch)
    (ps spv maxLen : Nat) (b : Subject) (rest : List Subject) (t : Tensor)
    (hempty : q.patches_list = [])
    (hs : q.sampler_class = some sampler) (hp : q.patch_size = some ps)
    (hm : q.max_length = some maxLen) (hv : q.samples_per_volume = some spv)
    (h0 : 0 < spv)
    (hit : q.subjects_iterable = b :: rest)
    (hlook : List.lookup "image" b = some t) (hnd : ¬ t.ndim = 4)
    (htar : 0 < min q.num_subjects (maxLen / spv)) :
    ∃ s : Queue, q.fill = .err (.assertionError shapeAssertMsg) s ∧
      s.patches_list = [] ∧
      s.subjects_iterable = rest ∧
      ∃ s2 : Queue, q.getItem 0 = .err (.assertionError shapeAssertMsg) s2 ∧
        s2.patches_list = [] := by
  have h0' : ¬ spv = 0 := Nat.pos_iff_ne_zero.mp h0
  have hemp : q.patches_list.isEmpty = true := by rw [hempty]; rfl
  have hgnss : ∀ q1 : Queue, q1.subjects_iterable = b :: rest →
      q1.get_next_subject_sample = .err (.assertionError shapeAssertMsg)
        { q1 with subjects_iterable := rest } := by
    intro q1 hq1
    unfold Queue.get_next_subject_sample
    rw [hq1]
    simp [squeeze_collate, hlook, hnd]
  have hloop : ∀ (q1 : Queue), q1.subjects_iterable = b :: rest → ∀ m : Nat,
      Queue.fillLoop sampler ps spv (m + 1) q1 =
        .err (.assertionError shapeAssertMsg)
          { q1 with subjects_iterable := rest } := by
    intro q1 hq1 m
    simp only [Queue.fillLoop, hgnss q1 hq1]
  by_cases hdiv : maxLen % spv = 0
  · have hcond : ¬(maxLen % spv ≠ 0) := by omega
    have hfill : q.fill = .err (.assertionError shapeAssertMsg)
        { q with subjects_iterable := rest } := by
      unfold Queue.fill
      rw [hs, hp, hm, hv]
      simp only [if_neg h0', if_neg hcond]
      cases hmin : min q.num_subjects (maxLen / spv) with
      | zero => omega
      | succ m => rw [hloop q hit m, hs, hp, hm, hv]
    refine ⟨{ q with subjects_iterable := rest }, hfill, hempty, rfl,
      ⟨{ q with subjects_iterable := rest },
        getItem_eq_err q 0 (.assertionError shapeAssertMsg)
          { q with subjects_iterable := rest }
          (by rw [if_pos hemp, hfill]), hempty⟩⟩
  · have hcond : maxLen % spv ≠ 0 := hdiv
    have hfill : q.fill = .err (.assertionError shapeAssertMsg)
        { q with subjects_iterable := rest,
                 warningsEmitted :=
                   q.warningsEmitted ++ [divisibilityMessage spv maxLen] } := by
      unfold Queue.fill
      rw [hs, hp, hm, hv]
      simp only [if_neg h0', if_pos hcond]
      cases hmin : min q.num_subjects (maxLen / spv) with
      | zero => omega
      | succ m =>
        have step := hloop
          { q with max_length := some maxLen,
                   samples_per_volume := some spv,
                   sampler_class := some sampler,
                   patch_size := some ps,
                   warningsEmitted :=
                     q.warningsEmitted ++ [divisibilityMessage spv maxLen] }
          hit m
        exact step
    refine ⟨{ q with subjects_iterable := rest,
                     warningsEmitted :=
                       q.warningsEmitted ++ [divisibilityMessage spv maxLen] },
      hfill, hempty, rfl, ?_⟩
    exact ⟨{ q with subjects_iterable := rest,
                    warningsEmitted :=
                      q.warningsEmitted ++ [divisibilityMessage spv maxLen] },
      getItem_eq_err q 0 (.assertionError shapeAssertMsg)
        { q with subjects_iterable := rest,
                 warningsEmitted :=
                   q.warningsEmitted ++ [divisibilityMessage spv maxLen] }
        (by rw [if_pos hemp, hfill]), hempty⟩

/-- A subject whose payload has 5 axes after batch-axis stripping, first
in the iterable: the C6 witness. -/
def C6wbad : Subject := [("image", ⟨[2, 2, 2, 2, 2]⟩)]

/-- Concrete queue for the C6 witness. -/
def C6wq : Queue := Queue.init [C6wbad] (fun _ => [C6wbad]) (some 1) (some 1)
  (some 0) (some (fun _ _ => [])) 0 false false

/-- Witness for the amended C6: failing item drawn first, buffer stays
empty. -/
theorem C6_shape_rejection_witness :
    ∃ s : Queue, C6wq.fill = .err (.assertionError shapeAssertMsg) s ∧
      s.patches_list = [] ∧
      s.subjects_iterable = [] ∧
      ∃ s2 : Queue, C6wq.getItem 0 = .err (.assertionError shapeAssertMsg) s2 ∧
        s2.patches_list = [] :=
  C6_shape_rejection C6wq (fun _ _ => []) 0 1 1 C6wbad [] ⟨[2, 2, 2, 2, 2]⟩
    rfl rfl rfl rfl rfl (by omega) rfl rfl (by decide) (by decide)

/-- Queue constructed with both `max_length` and `samples_per_volume`
missing (None), used to refute claim C7 as stated. -/
def C7q : Queue := Queue.init [] (fun _ => []) none none (some 0)
  (some (fun _ _ => [])) 0 false false

/-- Claim C7, counterexample: constructing with `max_length = None` and
`samples_per_volume = None` succeeds — no assertion runs at construction,
the values are stored unchecked — and the missing values only surface
later, inside the refill, as a `TypeError` (not an assertion failure). -/
theorem C7_counterexample :
    C7q.max_length = none ∧ C7q.samples_per_volume = none ∧
    C7q.patches_list = [] ∧ C7q.num_sampled_patches = 0 ∧
    (C7q.fill).errKind = some PyErr.typeError :=
  ⟨rfl, rfl, rfl, rfl, rfl⟩

/-- Claim C7 amended: construction validates nothing — every argument,
including a missing (None) capacity or sub_items_per_source, is stored
unchecked and construction always succeeds.  The assert statements live
in the refill and check that the sampler class and the patch size are
provided; a missing capacity or sub_items_per_source fails only at
refill time, with a `TypeError` from the `%` operation. -/
theorem C7_construction_unchecked (ds : List Subject)
    (passes : Nat → List Subject) (ml spv psz : Option Nat)
    (sc : Option (Subject → Nat → List Patch)) (nw : Nat) (sh vb : Bool) :
    (Queue.init ds passes ml spv psz sc nw sh vb).max_length = ml ∧
    (Queue.init ds passes ml spv psz sc nw sh vb).samples_per_volume = spv ∧
    (Queue.init ds passes ml spv psz sc nw sh vb).patches_list = [] ∧
    (Queue.init ds passes ml spv psz sc nw sh vb).num_sampled_patches = 0 ∧
    (Queue.init ds passes ml spv psz sc nw sh vb).warningsEmitted = [] ∧
    (sc = none →
      ((Queue.init ds passes ml spv psz sc nw sh vb).fill).errKind =
        some (.assertionError samplerAssertMsg)) ∧
    (∀ f, sc = some f → psz = none →
      ((Queue.init ds passes ml spv psz sc nw sh vb).fill).errKind =
        some (.assertionError patchSizeAssertMsg)) ∧
    (∀ f n, sc = some f → psz = some n → ml = none →
      ((Queue.init ds passes ml spv psz sc nw sh vb).fill).errKind =
        some PyErr.typeError) := by
  refine ⟨rfl, rfl, rfl, rfl, rfl, ?_, ?_, ?_⟩
  · intro h
    subst h
    rfl
  · intro f hf hpz
    subst hf
    subst hpz
    rfl
  · intro f n hf hpz hml
    subst hf
    subst hpz
    subst hml
    rfl

/-- Witness for the amended C7 at concrete arguments with a missing
capacity. -/
theorem C7_construction_unchecked_witness :
    (Queue.init [] (fun _ => []) none (some 2) (some 0)
      (some (fun _ _ => [])) 0 false false).max_length = none ∧
    ((Queue.init [] (fun _ => []) none (some 2) (some 0)
      (some (fun _ _ => [])) 0 false false).fill).errKind =
        some PyErr.typeError :=
  ⟨(C7_construction_unchecked [] (fun _ => []) none (some 2) (some 0)
      (some (fun _ _ => [])) 0 false false).1,
   (C7_construction_unchecked [] (fun _ => []) none (some 2) (some 0)
      (some (fun _ _ => [])) 0 false false).2.2.2.2.2.2.2
      (fun _ _ => []) 0 rfl rfl rfl⟩

/-- Concrete subject for the C10 counterexample. -/
def C10subj : Subject := [("image", ⟨[1, 2, 2, 2]⟩)]

/-- A patch with no `'path'` key at all. -/
def C10patchNoPath : Patch := [("crop", PatchVal.tensor ⟨[1, 1, 1, 1]⟩)]

/-- Non-verbose queue whose strategy produces path-less patches. -/
def C10q : Queue := Queue.init [C10subj] (fun _ => [C10subj]) (some 2)
  (some 1) (some 0) (some (fun _ _ => [C10patchNoPath])) 0 false false

/-- Claim C10, counterexample: with `verbose` DISABLED, a pop still reads
the `'path'` field of every buffered sub-item — Python evaluates the
trace-message arguments before the suppressed print — so a path-less
sub-item makes the pop fail with `KeyError` even though nothing would
have been printed. -/
theorem C10_counterexample :
    C10q.verbose = false ∧
    (C10q.getItem 0).errKind = some (PyErr.keyError "path") :=
  ⟨rfl, rfl⟩

/-- Claim C10 amended: `pop_next()` evaluates the trace arguments on
every call under BOTH verbose settings: after any refill, the `'path'`
value of each buffered sub-item is read and must be a string; otherwise
the pop fails (with `KeyError` for a missing key or `AttributeError` for
a non-string value) before removing an item or incrementing the sampled
count, and the behaviour is identical whatever `verbose` is — the flag
only controls printing, not evaluation. -/
theorem C10_trace_eager (q : Queue) (e : PyErr) (idx : Nat) (b : Bool)
    (hne : q.patches_list ≠ [])
    (hbad : tracePatches q.patches_list = .error e) :
    ({ q with verbose := b }).getItem idx = .err e { q with verbose := b } ∧
    (e = .keyError "path" ∨ e = .attributeError) := by
  have hq : ({ q with verbose := b } : Queue).patches_list.isEmpty = false := by
    show q.patches_list.isEmpty = false
    cases hl : q.patches_list with
    | nil => exact absurd hl hne
    | cons a l => rfl
  constructor
  · have hgi := getItem_eq_ok { q with verbose := b } idx ()
      { q with verbose := b } (by rw [if_neg (by rw [hq]; simp)])
    rw [hgi]
    unfold Queue.popStage
    rw [show ({ q with verbose := b } : Queue).patches_list =
      q.patches_list from rfl, hbad]
  · exact tracePatches_err _ _ hbad

/-- Concrete queue (non-empty buffer, patch with no string path) for the
C10 witness. -/
def C10w : Queue :=
  { subjects_dataset := [], max_length := some 2, shuffle_dataset := false,
    samples_per_volume := some 1, sampler_class := none, patch_size := some 0,
    num_workers := 0, verbose := false, passes := fun _ => [], passCount := 1,
    subjects_iterable := [], patches_list := [[("crop", PatchVal.tensor ⟨[2]⟩)]],
    num_sampled_patches := 4, warningsEmitted := [] }

/-- Witness for the amended C10 with verbose switched on. -/
theorem C10_trace_eager_witness :
    ({ C10w with verbose := true }).getItem 0 =
      .err (PyErr.keyError "path") { C10w with verbose := true } ∧
    (PyErr.keyError "path" = PyErr.keyError "path" ∨
     PyErr.keyError "path" = PyErr.attributeError) :=
  C10_trace_eager C10w (PyErr.keyError "path") 0 true (by decide) rfl

/-- Concrete subject for C8. -/
def C8subj : Subject := [("image", ⟨[1, 5, 5, 5]⟩)]

/-- Concrete patch with a string path for C8. -/
def C8patch : Patch := [("path", PatchVal.str "v_7")]

/-- Queue with capacity 10 and 3 sub-items per source. -/
def C8q : Queue := Queue.init [C8subj] (fun _ => [C8subj]) (some 10) (some 3)
  (some 0) (some (fun _ _ => [C8patch, C8patch, C8patch, C8patch])) 0
  false false

/-- Claim C8, counterexample: constructing the capacity-10,
3-per-source queue emits NO warning — the warning log is empty right
after construction; the not-evenly-divisible warning appears only when
the first refill runs. -/
theorem C8_counterexample :
    C8q.warningsEmitted = [] ∧
    (C8q.fill).finalState.warningsEmitted = [divisibilityMessage 3 10] :=
  ⟨rfl, rfl⟩

/-- Claim C8 amended: with capacity 10 and 3 sub-items per source it is
the FIRST REFILL, not the construction, that emits the
not-evenly-divisible warning; execution proceeds — the pop succeeds and
increments the sampled count — and the buffer holds at most 9 sub-items
right after the refill (at most 3 batches of at most 3). -/
theorem C8_divisibility (q : Queue) (sampler : Subject → Nat → List Patch)
    (ps : Nat)
    (hempty : q.patches_list = []) (hw0 : q.warningsEmitted = [])
    (hs : q.sampler_class = some sampler) (hp : q.patch_size = some ps)
    (hm : q.max_length = some 10) (hv : q.samples_per_volume = some 3)
    (hwf : q.sourceWf) (hn : 0 < q.num_subjects)
    (hne : ∀ b, sampler b ps ≠ [])
    (hpath : ∀ b p, p ∈ sampler b ps →
      ∃ str, List.lookup "path" p = some (PatchVal.str str)) :
    ∃ (qm q' : Queue) (p : Patch),
      q.fill = .ok () qm ∧
      qm.warningsEmitted = [divisibilityMessage 3 10] ∧
      qm.num_patches ≤ 9 ∧
      q.getItem 0 = .ok p q' ∧
      q'.num_sampled_patches = q.num_sampled_patches + 1 := by
  obtain ⟨drawn, qm, heq, hlen, hpl, hok, hwf', hcfg', hns', hw'⟩ :=
    fill_ok q sampler ps 3 10 hs hp hm hv (by omega) hwf hn
  have hwmsg : qm.warningsEmitted = [divisibilityMessage 3 10] := by
    rw [hw', hw0]
    simp
  have hb : qm.num_patches ≤ 9 := by
    show qm.patches_list.length ≤ 9
    rw [hpl, hempty, List.nil_append]
    calc (drawn.flatMap fun b => (sampler b ps).take 3).length
        ≤ drawn.length * 3 := length_flatMap_le _ _ 3 (fun b => by
          rw [List.length_take]
          omega)
      _ ≤ 9 := by
          rw [hlen]
          have h1 := Nat.min_le_right q.num_subjects (10 / 3)
          omega
  have hd1 : drawn ≠ [] := by
    intro hnil
    rw [hnil] at hlen
    have h2 : 1 ≤ min q.num_subjects (10 / 3) :=
      Nat.le_min.mpr ⟨hn, by omega⟩
    simp at hlen
    omega
  obtain ⟨d, ds, rfl⟩ : ∃ d ds, drawn = d :: ds := by
    cases drawn with
    | nil => exact absurd rfl hd1
    | cons d ds => exact ⟨d, ds, rfl⟩
  have htk : ((sampler d ps).take 3) ≠ [] := by
    intro hnil
    have h3 := congrArg List.length hnil
    rw [List.length_take] at h3
    simp at h3
    exact hne d h3
  have hplne : qm.patches_list ≠ [] := by
    rw [hpl, hempty, List.nil_append, List.flatMap_cons]
    intro h
    exact htk (List.append_eq_nil.mp h).1
  obtain ⟨p0, hp0⟩ : ∃ p0, qm.patches_list.getLast? = some p0 := by
    cases hq : qm.patches_list with
    | nil => exact absurd hq hplne
    | cons a l => exact ⟨(a :: l).getLast (by simp), List.getLast?_eq_getLast _ _⟩
  obtain ⟨out, hout⟩ := tracePatches_ok qm.patches_list (by
    intro p hpmem
    rw [hpl, hempty, List.nil_append] at hpmem
    obtain ⟨b, hbmem, hpb⟩ := List.mem_flatMap.mp hpmem
    exact hpath b p (List.mem_of_mem_take hpb))
  have hpop : qm.popStage = .ok p0
      { qm with patches_list := qm.patches_list.dropLast,
                num_sampled_patches := qm.num_sampled_patches + 1 } := by
    unfold Queue.popStage
    rw [hout, hp0]
  have hemp : q.patches_list.isEmpty = true := by rw [hempty]; rfl
  have hgi : q.getItem 0 = qm.popStage :=
    getItem_eq_ok q 0 () qm (by rw [if_pos hemp, heq])
  refine ⟨qm, _, p0, heq, hwmsg, hb, hgi.trans hpop, ?_⟩
  show qm.num_sampled_patches + 1 = q.num_sampled_patches + 1
  rw [hns']

/-- Witness for the amended C8 at the concrete capacity-10 queue. -/
theorem C8_divisibility_witness :
    ∃ (qm q' : Queue) (p : Patch),
      C8q.fill = .ok () qm ∧
      qm.warningsEmitted = [divisibilityMessage 3 10] ∧
      qm.num_patches ≤ 9 ∧
      C8q.getItem 0 = .ok p q' ∧
      q'.num_sampled_patches = C8q.num_sampled_patches + 1 :=
  C8_divisibility C8q (fun _ _ => [C8patch, C8patch, C8patch, C8patch]) 0
    rfl rfl rfl rfl rfl rfl
    (by
      refine ⟨fun s hs => ?_, fun s hs => ?_, fun k s hs => ?_, fun k => rfl⟩
      all_goals
        have hs2 : s ∈ [C8subj] := hs
        simp only [List.mem_singleton] at hs2
        subst hs2
        decide)
    (by decide)
    (fun b => (by decide : [C8patch, C8patch, C8patch, C8patch] ≠ []))
    (fun b p hp => by
      have hp2 : p ∈ [C8patch, C8patch, C8patch, C8patch] := hp
      simp only [List.mem_cons, List.not_mem_nil, or_false, or_self] at hp2
      subst hp2
      exact ⟨"v_7", rfl⟩)
